import Mathlib

/-!
Verification of the comet-brightening magnitude model in
`total_heliocentric_mag.py` and of the distance grids in
`plot_brightening_curves.py`.

Real numbers stand in for numpy floats; `Real.logb 10` models `np.log10`;
a raised `ValueError` is modelled as `Except.error` carrying the message.
Parameter constants are stored as rationals (they are exact decimal
literals in the source) and cast to `ℝ` where arithmetic happens.
-/

/-- Inbound (pre-perihelion) parameter record: near-Sun slope, far-Sun slope,
magnitude at 1 au (fields `k_near`, `k_far`, `m1` of the source dictionary). -/
structure InboundPars where
  k_near : ℚ
  k_far : ℚ
  m1 : ℚ
deriving DecidableEq

/-- Outbound (post-perihelion) parameter record: fading slope `k1` and
magnitude at 1 au `m1`. -/
structure OutboundPars where
  k1 : ℚ
  m1 : ℚ
deriving DecidableEq

/-- Per-group entry of `BRIGHTENING_PARS`: one inbound and one outbound record. -/
structure ArcPars where
  inbound : InboundPars
  outbound : OutboundPars
deriving DecidableEq

/-- The list `OORT_GROUPS = ["new", "int", "old"]` used for validation. -/
def OORT_GROUPS : List String := ["new", "int", "old"]

/-- The hardcoded dictionary `BRIGHTENING_PARS` (lines 64-84 of
`total_heliocentric_mag.py`); `none` models a missing key. -/
def BRIGHTENING_PARS : String → Option ArcPars
  | "new" => some ⟨⟨6.7285, 12.847, 8.28⟩, ⟨11.54, 8.75⟩⟩
  | "int" => some ⟨⟨7.83575, 12.524, 8.96⟩, ⟨12.66, 9.71⟩⟩
  | "old" => some ⟨⟨13.40275, 14.632, 11.58⟩, ⟨13.21, 11.57⟩⟩
  | _ => none

/-- Transition distance `TRANSITION_R = 3.16` au. -/
noncomputable def TRANSITION_R : ℝ := 3.16

/-- The value `transition_log_r = np.log10(TRANSITION_R)`. -/
noncomputable def transition_log_r : ℝ := Real.logb 10 TRANSITION_R

/-- A numpy-style argument that is either a scalar or a 1-d array,
modelled as a scalar or a list. -/
inductive NumOrSeq (α : Type) where
  | scalar (x : α)
  | seq (xs : List α)

/-- Elementwise application, modelling numpy broadcasting of a unary
operation over a scalar or an array. -/
def NumOrSeq.map {α β : Type} (f : α → β) : NumOrSeq α → NumOrSeq β
  | .scalar x => .scalar (f x)
  | .seq xs => .seq (xs.map f)

/-- Holds when every component of a scalar-or-array value satisfies `P`. -/
def NumOrSeq.Forall {α : Type} (P : α → Prop) : NumOrSeq α → Prop
  | .scalar x => P x
  | .seq xs => ∀ x ∈ xs, P x

/-- The derived far-branch intercept
`m_far = m_near + transition_log_r * (k_near - k_far)` (line 112). -/
noncomputable def inbound_m_far (p : InboundPars) : ℝ :=
  (p.m1 : ℝ) + transition_log_r * ((p.k_near : ℝ) - (p.k_far : ℝ))

/-- One element of the inbound `np.where(mask, m_near + k_near*log_r,
m_far + k_far*log_r)` computation (lines 108-113): the mask is
`log_r < transition_log_r`. -/
noncomputable def inbound_mag (p : InboundPars) (log_r : ℝ) : ℝ :=
  if log_r < transition_log_r then (p.m1 : ℝ) + (p.k_near : ℝ) * log_r
  else inbound_m_far p + (p.k_far : ℝ) * log_r

/-- One element of the outbound computation `m + k * log_r` (lines 115-117). -/
noncomputable def outbound_mag (p : OutboundPars) (log_r : ℝ) : ℝ :=
  (p.m1 : ℝ) + (p.k1 : ℝ) * log_r

/-- Accumulator pass over decimal digit characters. -/
def parseDigitsAux : List Char → ℕ → Option ℕ
  | [], acc => some acc
  | c :: cs, acc =>
    if c.isDigit then parseDigitsAux cs (10 * acc + (c.toNat - 48)) else none

/-- Reads a nonempty all-digit character list as a natural number. -/
def parseDigits : List Char → Option ℕ
  | [] => none
  | c :: cs => parseDigitsAux (c :: cs) 0

/-- Splits a character list at the first dot; fails when a second dot occurs. -/
def splitDot : List Char → Option (List Char × Option (List Char))
  | [] => some ([], none)
  | c :: cs =>
    if c = '.' then
      if '.' ∈ cs then none else some ([], some cs)
    else
      match splitDot cs with
      | some (w, f) => some (c :: w, f)
      | none => none

/-- Models the Python builtin `float()` on plain unsigned decimal numerals
such as `"5.0"` (the only shapes the command-line mode is exercised with
here); `none` models a raised `ValueError`. -/
def pyFloat (s : String) : Option ℚ :=
  match splitDot s.toList with
  | none => none
  | some (w, none) => (parseDigits w).map (fun n => (n : ℚ))
  | some (w, some f) =>
    match parseDigits w, parseDigits f with
    | some n, some m => some ((n : ℚ) + (m : ℚ) / (10 : ℚ) ^ f.length)
    | _, _ => none

/-- Lines 97-118 of `total_heliocentric_mag.py`: validation of `oort_group`
then `orbital_arc`, lookup in `BRIGHTENING_PARS`, elementwise `np.log10`,
and the per-arc magnitude formula. -/
noncomputable def evaluate_checked (distance : NumOrSeq ℝ)
    (orbital_arc oort_group : String) : Except String (NumOrSeq ℝ) :=
  if oort_group ∉ OORT_GROUPS then
    Except.error ("Invalid oort group: " ++ oort_group)
  else if orbital_arc ∉ ["inbound", "outbound"] then
    Except.error ("Invalid arc: " ++ orbital_arc)
  else
    match BRIGHTENING_PARS oort_group with
    | none => Except.error ("KeyError: " ++ oort_group)
    | some p =>
      let log_r := distance.map (Real.logb 10)
      if orbital_arc = "inbound" then Except.ok (log_r.map (inbound_mag p.inbound))
      else Except.ok (log_r.map (outbound_mag p.outbound))

/-- The function `total_heliocentric_mag` (lines 7-118). The `argv` parameter
models `sys.argv`: when it has exactly four entries the function discards its
`distance`, `orbital_arc` and `oort_group` arguments and re-reads them from
`argv[1:4]`, with `argv[1]` passed through `float()` (lines 89-95). -/
noncomputable def total_heliocentric_mag (argv : List String)
    (distance : NumOrSeq ℝ) (orbital_arc oort_group : String) :
    Except String (NumOrSeq ℝ) :=
  if argv.length = 4 then
    match pyFloat (argv.getD 1 "") with
    | none => Except.error ("could not convert string to float: " ++ argv.getD 1 "")
    | some q => evaluate_checked (NumOrSeq.scalar (q : ℝ)) (argv.getD 2 "") (argv.getD 3 "")
  else evaluate_checked distance orbital_arc oort_group

/-- The three magnitude values printed by `main()` (lines 141-150): the demo
calls `total_heliocentric_mag(5.0, "inbound", "new")`,
`total_heliocentric_mag([1.0, 3.0, 10.0], "inbound", "new")` and
`total_heliocentric_mag([2.3, 3.7], "outbound", "old")`, each still subject
to the `sys.argv` override inside the function. -/
noncomputable def mainOutputs (argv : List String) :
    List (Except String (NumOrSeq ℝ)) :=
  [total_heliocentric_mag argv (NumOrSeq.scalar 5) "inbound" "new",
   total_heliocentric_mag argv (NumOrSeq.seq [1, 3, 10]) "inbound" "new",
   total_heliocentric_mag argv (NumOrSeq.seq [2.3, 3.7]) "outbound" "old"]

/-- The numpy call `np.linspace(a, b, n)` (with the default `endpoint=True`):
`n` evenly spaced samples from `a` to `b`, step `(b - a)/(n - 1)`. -/
def linspace (a b : ℚ) (n : ℕ) : List ℚ :=
  (List.range n).map (fun i : ℕ => a + (b - a) * (i : ℚ) / ((n : ℚ) - 1))

/-- The grid `r = np.linspace(1, 10, 100)` of `plot_brightening_curves.py`
(line 40), used for both the inbound and the outbound curves. -/
def r : List ℚ := linspace 1 10 100

/-- The grid `r_near = np.linspace(3.16, 1, 100)` (line 42), used for the
near-segment slope-annotation midpoint. -/
def r_near : List ℚ := linspace 3.16 1 100

/-- The grid `r_far = np.linspace(10, 3.16, 100)` (line 43), used for the
far-segment slope-annotation midpoint. -/
def r_far : List ℚ := linspace 10 3.16 100

lemma NumOrSeq.map_map {α β γ : Type} (f : α → β) (h : β → γ) (x : NumOrSeq α) :
    (x.map f).map h = x.map (fun a => h (f a)) := by
  cases x <;> simp [NumOrSeq.map]

lemma group_of_pars (g : String) (p : ArcPars) (h : BRIGHTENING_PARS g = some p) :
    g = "new" ∨ g = "int" ∨ g = "old" := by
  unfold BRIGHTENING_PARS at h
  split at h <;> simp_all

lemma evaluate_checked_inbound (g : String) (p : ArcPars)
    (hg : BRIGHTENING_PARS g = some p) (x : NumOrSeq ℝ) :
    evaluate_checked x "inbound" g =
      Except.ok (x.map (fun d => inbound_mag p.inbound (Real.logb 10 d))) := by
  rcases group_of_pars g p hg with h | h | h <;> subst h <;>
    rw [← Option.some.inj hg] <;>
    simp [evaluate_checked, OORT_GROUPS, BRIGHTENING_PARS, NumOrSeq.map_map]

lemma evaluate_checked_outbound (g : String) (p : ArcPars)
    (hg : BRIGHTENING_PARS g = some p) (x : NumOrSeq ℝ) :
    evaluate_checked x "outbound" g =
      Except.ok (x.map (fun d => outbound_mag p.outbound (Real.logb 10 d))) := by
  rcases group_of_pars g p hg with h | h | h <;> subst h <;>
    rw [← Option.some.inj hg] <;>
    simp [evaluate_checked, OORT_GROUPS, BRIGHTENING_PARS, NumOrSeq.map_map]

lemma total_mag_no_cli (x : NumOrSeq ℝ) (a g : String) :
    total_heliocentric_mag [] x a g = evaluate_checked x a g := by
  simp [total_heliocentric_mag]

lemma pyFloat_five : pyFloat "5.0" = some 5 := by
  have h : pyFloat "5.0" = some (((5:ℕ):ℚ) + ((0:ℕ):ℚ) / (10:ℚ) ^ (1:ℕ)) := rfl
  rw [h]
  norm_num

lemma total_mag_cli (p0 dstr a g : String) (q : ℚ) (hq : pyFloat dstr = some q)
    (x : NumOrSeq ℝ) (a0 g0 : String) :
    total_heliocentric_mag [p0, dstr, a, g] x a0 g0 =
      evaluate_checked (NumOrSeq.scalar (q : ℝ)) a g := by
  simp only [total_heliocentric_mag, List.length_cons, List.length_nil,
    List.getD_cons_succ, List.getD_cons_zero, hq]
  simp

lemma exists_branch_fun (a g : String) (ha : a = "inbound" ∨ a = "outbound")
    (hg : g ∈ OORT_GROUPS) :
    ∃ f : ℝ → ℝ, ∀ x : NumOrSeq ℝ,
      total_heliocentric_mag [] x a g = Except.ok (x.map f) := by
  simp only [OORT_GROUPS, List.mem_cons, List.not_mem_nil, or_false] at hg
  rcases hg with h | h | h <;> subst h <;> rcases ha with h | h <;> subst h
  · exact ⟨_, fun x => by rw [total_mag_no_cli, evaluate_checked_inbound "new" _ rfl]⟩
  · exact ⟨_, fun x => by rw [total_mag_no_cli, evaluate_checked_outbound "new" _ rfl]⟩
  · exact ⟨_, fun x => by rw [total_mag_no_cli, evaluate_checked_inbound "int" _ rfl]⟩
  · exact ⟨_, fun x => by rw [total_mag_no_cli, evaluate_checked_outbound "int" _ rfl]⟩
  · exact ⟨_, fun x => by rw [total_mag_no_cli, evaluate_checked_inbound "old" _ rfl]⟩
  · exact ⟨_, fun x => by rw [total_mag_no_cli, evaluate_checked_outbound "old" _ rfl]⟩

lemma logb_ten_lt_div (x : ℝ) (hx : 0 < x) (p q : ℕ) (hq : 0 < q)
    (h : x ^ q < 10 ^ p) : Real.logb 10 x < (p : ℝ) / (q : ℝ) := by
  have h10 : (0 : ℝ) < Real.log 10 := Real.log_pos (by norm_num)
  have hql : (0 : ℝ) < ((q : ℕ) : ℝ) := by exact_mod_cast hq
  have hlt : Real.log (x ^ q) < Real.log ((10 : ℝ) ^ p) :=
    Real.log_lt_log (pow_pos hx q) h
  rw [Real.log_pow, Real.log_pow] at hlt
  rw [Real.logb, div_lt_div_iff₀ h10 hql]
  linear_combination hlt

lemma div_lt_logb_ten (x : ℝ) (p q : ℕ) (hq : 0 < q)
    (h : (10 : ℝ) ^ p < x ^ q) : (p : ℝ) / (q : ℝ) < Real.logb 10 x := by
  have h10 : (0 : ℝ) < Real.log 10 := Real.log_pos (by norm_num)
  have hql : (0 : ℝ) < ((q : ℕ) : ℝ) := by exact_mod_cast hq
  have hlt : Real.log ((10 : ℝ) ^ p) < Real.log (x ^ q) :=
    Real.log_lt_log (pow_pos (by norm_num) p) h
  rw [Real.log_pow, Real.log_pow] at hlt
  rw [Real.logb, div_lt_div_iff₀ hql h10]
  linear_combination hlt

lemma logb_316_lt : Real.logb 10 (3.16 : ℝ) < 0.5 := by
  have h := logb_ten_lt_div 3.16 (by norm_num) 1 2 (by norm_num) (by norm_num)
  norm_num at h
  linarith

lemma logb_316_gt : (0.499 : ℝ) < Real.logb 10 (3.16 : ℝ) := by
  have h := div_lt_logb_ten 3.16 499 1000 (by norm_num) (by norm_num)
  norm_num at h
  linarith

lemma logb_5_lt : Real.logb 10 (5 : ℝ) < 0.699 := by
  have h := logb_ten_lt_div 5 (by norm_num) 699 1000 (by norm_num) (by norm_num)
  norm_num at h
  linarith

lemma logb_5_gt : (0.698 : ℝ) < Real.logb 10 (5 : ℝ) := by
  have h := div_lt_logb_ten 5 698 1000 (by norm_num) (by norm_num)
  norm_num at h
  linarith

lemma total_new_inbound_five :
    total_heliocentric_mag [] (NumOrSeq.scalar 5) "inbound" "new" =
      Except.ok (NumOrSeq.scalar
        (inbound_m_far ⟨6.7285, 12.847, 8.28⟩ + ((12.847 : ℚ) : ℝ) * Real.logb 10 5)) := by
  rw [total_mag_no_cli, evaluate_checked_inbound "new" _ rfl]
  have hle : transition_log_r ≤ Real.logb 10 (5 : ℝ) := by
    unfold transition_log_r TRANSITION_R
    exact Real.logb_le_logb_of_le (by norm_num) (by norm_num) (by norm_num)
  simp only [NumOrSeq.map, inbound_mag, if_neg (not_lt.mpr hle)]

lemma new_far_value_bounds :
    14.18 < inbound_m_far ⟨6.7285, 12.847, 8.28⟩ + ((12.847 : ℚ) : ℝ) * Real.logb 10 5 ∧
    inbound_m_far ⟨6.7285, 12.847, 8.28⟩ + ((12.847 : ℚ) : ℝ) * Real.logb 10 5 < 14.21 := by
  have hv : inbound_m_far ⟨6.7285, 12.847, 8.28⟩ + ((12.847 : ℚ) : ℝ) * Real.logb 10 5
      = 8.28 + Real.logb 10 (3.16 : ℝ) * (6.7285 - 12.847)
        + 12.847 * Real.logb 10 (5 : ℝ) := by
    unfold inbound_m_far transition_log_r TRANSITION_R
    push_cast
    ring
  rw [hv]
  constructor
  · nlinarith [logb_316_lt, logb_5_gt]
  · nlinarith [logb_316_gt, logb_5_lt]

lemma outbound_mag_lt (p : OutboundPars) (hk : 0 < p.k1) (l1 l2 : ℝ) (h : l1 < l2) :
    outbound_mag p l1 < outbound_mag p l2 := by
  have hkR : (0 : ℝ) < (p.k1 : ℝ) := by exact_mod_cast hk
  unfold outbound_mag
  nlinarith

lemma inbound_mag_lt (p : InboundPars) (hkn : 0 < p.k_near) (hkf : 0 < p.k_far)
    (l1 l2 : ℝ) (h : l1 < l2) : inbound_mag p l1 < inbound_mag p l2 := by
  have hknR : (0 : ℝ) < (p.k_near : ℝ) := by exact_mod_cast hkn
  have hkfR : (0 : ℝ) < (p.k_far : ℝ) := by exact_mod_cast hkf
  rcases lt_or_le l1 transition_log_r with h1 | h1
  · rcases lt_or_le l2 transition_log_r with h2 | h2
    · simp only [inbound_mag, if_pos h1, if_pos h2]
      nlinarith
    · simp only [inbound_mag, if_pos h1, if_neg (not_lt.mpr h2)]
      unfold inbound_m_far
      nlinarith [mul_pos hknR (sub_pos.mpr h1), mul_nonneg hkfR.le (sub_nonneg.mpr h2)]
  · have h2 : transition_log_r ≤ l2 := h1.trans h.le
    simp only [inbound_mag, if_neg (not_lt.mpr h1), if_neg (not_lt.mpr h2)]
    nlinarith

lemma linspace_length (a b : ℚ) (n : ℕ) : (linspace a b n).length = n := by
  simp only [linspace, List.length_map, List.length_range]

lemma linspace_get (a b : ℚ) (n : ℕ) (i : Fin (linspace a b n).length) :
    (linspace a b n).get i = a + (b - a) * ((i : ℕ) : ℚ) / ((n : ℚ) - 1) := by
  rcases i with ⟨i, hi⟩
  simp only [linspace, List.get_eq_getElem, List.getElem_map, List.getElem_range]

/-- Claim C1: for every Oort group with an entry in the parameter table and
every positive distance (elementwise over scalar or sequence input), the
inbound evaluation selects its branch per element: below `log10 3.16` the
result is `m_near + k_near * log10 d` from that group's inbound `k_near` and
`m1`, otherwise `m_far + k_far * log10 d` with
`m_far = m_near + log10 3.16 * (k_near - k_far)`. -/
theorem C1_inbound_branch_selection (g : String) (p : ArcPars)
    (hg : BRIGHTENING_PARS g = some p) (x : NumOrSeq ℝ)
    (hx : x.Forall (fun d => 0 < d)) :
    total_heliocentric_mag [] x "inbound" g =
      Except.ok (x.map (fun d =>
        if Real.logb 10 d < Real.logb 10 3.16 then
          (p.inbound.m1 : ℝ) + (p.inbound.k_near : ℝ) * Real.logb 10 d
        else
          ((p.inbound.m1 : ℝ) + Real.logb 10 3.16 *
              ((p.inbound.k_near : ℝ) - (p.inbound.k_far : ℝ)))
            + (p.inbound.k_far : ℝ) * Real.logb 10 d)) := by
  rw [total_mag_no_cli, evaluate_checked_inbound g p hg]
  rfl

/-- Witness for C1 at distance 5 in group "new". -/
theorem C1_inbound_branch_selection_witness :
    total_heliocentric_mag [] (NumOrSeq.scalar 5) "inbound" "new" =
      Except.ok (NumOrSeq.scalar
        (if Real.logb 10 5 < Real.logb 10 3.16 then
          ((8.28 : ℚ) : ℝ) + ((6.7285 : ℚ) : ℝ) * Real.logb 10 5
        else
          (((8.28 : ℚ) : ℝ) + Real.logb 10 3.16 * (((6.7285 : ℚ) : ℝ) - ((12.847 : ℚ) : ℝ)))
            + ((12.847 : ℚ) : ℝ) * Real.logb 10 5)) :=
  C1_inbound_branch_selection "new" _ rfl (NumOrSeq.scalar 5)
    (by norm_num [NumOrSeq.Forall])

/-- Claim C2: for any inbound parameter record (hence for every group and
regardless of the slope values), the near-branch value and the far-branch
value agree exactly at the transition log-distance, because
`m_far = m_near + transition_log_r * (k_near - k_far)`. -/
theorem C2_continuity_at_transition (p : InboundPars) :
    (p.m1 : ℝ) + (p.k_near : ℝ) * transition_log_r
      = inbound_m_far p + (p.k_far : ℝ) * transition_log_r := by
  unfold inbound_m_far
  ring

/-- Claim C3: for every Oort group with an entry in the parameter table, the
outbound evaluation is exactly the single affine map
`m1 + k1 * log10 d` applied identically to every element (scalar or
sequence), with no transition and no branch. -/
theorem C3_outbound_affine (g : String) (p : ArcPars)
    (hg : BRIGHTENING_PARS g = some p) (x : NumOrSeq ℝ) :
    total_heliocentric_mag [] x "outbound" g =
      Except.ok (x.map (fun d =>
        (p.outbound.m1 : ℝ) + (p.outbound.k1 : ℝ) * Real.logb 10 d)) := by
  rw [total_mag_no_cli, evaluate_checked_outbound g p hg]
  rfl

/-- Witness for C3 on the sequence [2.3, 3.7] in group "old". -/
theorem C3_outbound_affine_witness :
    total_heliocentric_mag [] (NumOrSeq.seq [2.3, 3.7]) "outbound" "old" =
      Except.ok (NumOrSeq.seq ([2.3, 3.7].map
        (fun d => ((11.57 : ℚ) : ℝ) + ((13.21 : ℚ) : ℝ) * Real.logb 10 d))) :=
  C3_outbound_affine "old" _ rfl (NumOrSeq.seq [2.3, 3.7])

/-- Claim C4 counterexample: the evaluation is not independent of the
process's argument vector. With `sys.argv = ["prog", "5.0", "outbound",
"new"]` the call `total_heliocentric_mag(1.0, "inbound", "new")` returns a
different value than the same call with `sys.argv = ["prog"]`, because the
four-entry argv overrides all three arguments (lines 89-95 of the source). -/
theorem C4_counterexample :
    total_heliocentric_mag ["prog", "5.0", "outbound", "new"]
        (NumOrSeq.scalar 1) "inbound" "new"
      ≠ total_heliocentric_mag ["prog"] (NumOrSeq.scalar 1) "inbound" "new" := by
  have h1 : total_heliocentric_mag ["prog", "5.0", "outbound", "new"]
      (NumOrSeq.scalar 1) "inbound" "new"
      = Except.ok (NumOrSeq.scalar
          (((8.75 : ℚ) : ℝ) + ((11.54 : ℚ) : ℝ) * Real.logb 10 ((5 : ℚ) : ℝ))) := by
    rw [total_mag_cli "prog" "5.0" "outbound" "new" 5 pyFloat_five,
      evaluate_checked_outbound "new" _ rfl]
    rfl
  have h2 : total_heliocentric_mag ["prog"] (NumOrSeq.scalar 1) "inbound" "new"
      = Except.ok (NumOrSeq.scalar
          (((8.28 : ℚ) : ℝ) + ((6.7285 : ℚ) : ℝ) * Real.logb 10 1)) := by
    have hne : (["prog"] : List String).length ≠ 4 := by simp
    rw [total_heliocentric_mag, if_neg hne, evaluate_checked_inbound "new" _ rfl]
    have hpos : Real.logb 10 (1 : ℝ) < Real.logb 10 (3.16 : ℝ) := by
      rw [Real.logb_one]
      exact Real.logb_pos (by norm_num) (by norm_num)
    simp only [NumOrSeq.map, inbound_mag, transition_log_r, TRANSITION_R, if_pos hpos]
  rw [h1, h2]
  intro h
  simp only [Except.ok.injEq, NumOrSeq.scalar.injEq] at h
  have hL : (0 : ℝ) < Real.logb 10 (5 : ℝ) :=
    Real.logb_pos (by norm_num) (by norm_num)
  rw [Real.logb_one] at h
  push_cast at h
  nlinarith [hL]

/-- Claim C4 amended: the function is deterministic given its arguments and
the argument vector. Whenever argv does not have exactly four entries the
result depends only on (distance, arc, group); whenever argv has exactly
four entries the result ignores those arguments entirely. -/
theorem C4_amended :
    (∀ argv1 argv2 : List String, argv1.length ≠ 4 → argv2.length ≠ 4 →
      ∀ (x : NumOrSeq ℝ) (a g : String),
        total_heliocentric_mag argv1 x a g = total_heliocentric_mag argv2 x a g) ∧
    (∀ argv : List String, argv.length = 4 →
      ∀ (x1 x2 : NumOrSeq ℝ) (a1 a2 g1 g2 : String),
        total_heliocentric_mag argv x1 a1 g1 = total_heliocentric_mag argv x2 a2 g2) := by
  constructor
  · intro argv1 argv2 h1 h2 x a g
    rw [total_heliocentric_mag, total_heliocentric_mag, if_neg h1, if_neg h2]
  · intro argv h x1 x2 a1 a2 g1 g2
    rw [total_heliocentric_mag, total_heliocentric_mag, if_pos h, if_pos h]

/-- Witness for the amended C4: empty argv and a one-entry argv agree. -/
theorem C4_amended_witness :
    total_heliocentric_mag [] (NumOrSeq.scalar 2) "inbound" "new"
      = total_heliocentric_mag ["prog"] (NumOrSeq.scalar 2) "inbound" "new" :=
  C4_amended.1 [] ["prog"] (by simp) (by simp) (NumOrSeq.scalar 2) "inbound" "new"

/-- Claim C5: an invalid group yields the descriptive group error (checked
first, regardless of the arc); a valid group with an invalid arc yields the
descriptive arc error; valid group and arc always yield a magnitude result,
so the errors occur exactly when the claim says and carry no result value. -/
theorem C5_validation (x : NumOrSeq ℝ) (a g : String) :
    (g ∉ OORT_GROUPS →
      total_heliocentric_mag [] x a g = Except.error ("Invalid oort group: " ++ g)) ∧
    (g ∈ OORT_GROUPS → a ∉ ["inbound", "outbound"] →
      total_heliocentric_mag [] x a g = Except.error ("Invalid arc: " ++ a)) ∧
    (g ∈ OORT_GROUPS → a ∈ ["inbound", "outbound"] →
      ∃ m : NumOrSeq ℝ, total_heliocentric_mag [] x a g = Except.ok m) := by
  refine ⟨fun hg => ?_, fun hg ha => ?_, fun hg ha => ?_⟩
  · rw [total_mag_no_cli, evaluate_checked, if_pos hg]
  · rw [total_mag_no_cli, evaluate_checked, if_neg (not_not_intro hg), if_pos ha]
  · have ha2 : a = "inbound" ∨ a = "outbound" := by
      simpa [List.mem_cons] using ha
    obtain ⟨f, hf⟩ := exists_branch_fun a g ha2 hg
    exact ⟨x.map f, hf x⟩

/-- Witness for C5: the invalid group "ancient" and the invalid arc
"sideways" produce exactly the two descriptive errors. -/
theorem C5_validation_witness :
    total_heliocentric_mag [] (NumOrSeq.scalar 5) "inbound" "ancient" =
      Except.error "Invalid oort group: ancient" ∧
    total_heliocentric_mag [] (NumOrSeq.scalar 5) "sideways" "new" =
      Except.error "Invalid arc: sideways" :=
  ⟨(C5_validation (NumOrSeq.scalar 5) "inbound" "ancient").1 (by decide),
   (C5_validation (NumOrSeq.scalar 5) "sideways" "new").2.1 (by decide) (by decide)⟩

/-- Claim C6: for every valid arc and group there is a single per-element
magnitude function: a scalar distance returns a scalar, and a sequence of n
distances returns the n-element sequence whose i-th entry is the scalar
evaluation of the i-th distance. -/
theorem C6_shape_preservation (a g : String)
    (ha : a ∈ ["inbound", "outbound"]) (hg : g ∈ OORT_GROUPS) :
    ∃ f : ℝ → ℝ,
      (∀ d : ℝ, total_heliocentric_mag [] (NumOrSeq.scalar d) a g =
        Except.ok (NumOrSeq.scalar (f d))) ∧
      (∀ ds : List ℝ,
        total_heliocentric_mag [] (NumOrSeq.seq ds) a g =
          Except.ok (NumOrSeq.seq (ds.map f)) ∧ (ds.map f).length = ds.length) := by
  have ha2 : a = "inbound" ∨ a = "outbound" := by
    simpa [List.mem_cons] using ha
  obtain ⟨f, hf⟩ := exists_branch_fun a g ha2 hg
  exact ⟨f, fun d => hf (NumOrSeq.scalar d),
    fun ds => ⟨hf (NumOrSeq.seq ds), List.length_map ds f⟩⟩

/-- Witness for C6 at arc "inbound" and group "new". -/
theorem C6_shape_preservation_witness :
    ∃ f : ℝ → ℝ,
      (∀ d : ℝ, total_heliocentric_mag [] (NumOrSeq.scalar d) "inbound" "new" =
        Except.ok (NumOrSeq.scalar (f d))) ∧
      (∀ ds : List ℝ,
        total_heliocentric_mag [] (NumOrSeq.seq ds) "inbound" "new" =
          Except.ok (NumOrSeq.seq (ds.map f)) ∧ (ds.map f).length = ds.length) :=
  C6_shape_preservation "inbound" "new" (by decide) (by decide)

/-- Claim C7 counterexample: `evaluate(5.0, "inbound", "new")` is the
far-branch value, but that value exceeds 14 and is more than 6 away from
7.39, so the expected value of approximately 7.39 is wrong. -/
theorem C7_counterexample :
    ∃ v : ℝ,
      total_heliocentric_mag [] (NumOrSeq.scalar 5) "inbound" "new" =
        Except.ok (NumOrSeq.scalar v) ∧ 14 < v ∧ 6 < |v - 7.39| := by
  refine ⟨_, total_new_inbound_five, ?_, ?_⟩
  · nlinarith [new_far_value_bounds.1]
  · have h : (6 : ℝ) < inbound_m_far ⟨6.7285, 12.847, 8.28⟩
        + ((12.847 : ℚ) : ℝ) * Real.logb 10 5 - 7.39 := by
      nlinarith [new_far_value_bounds.1]
    exact lt_of_lt_of_le h (le_abs_self _)

/-- Claim C7 amended: `evaluate(5.0, "inbound", "new")` returns the
far-branch value `m_far + 12.847 * log10 5` with
`m_far = 8.28 + log10 3.16 * (6.7285 - 12.847)`, and this value lies
strictly between 14.18 and 14.21 (approximately 14.20, not 7.39). -/
theorem C7_amended :
    total_heliocentric_mag [] (NumOrSeq.scalar 5) "inbound" "new" =
      Except.ok (NumOrSeq.scalar
        (inbound_m_far ⟨6.7285, 12.847, 8.28⟩ + ((12.847 : ℚ) : ℝ) * Real.logb 10 5)) ∧
    14.18 < inbound_m_far ⟨6.7285, 12.847, 8.28⟩ + ((12.847 : ℚ) : ℝ) * Real.logb 10 5 ∧
    inbound_m_far ⟨6.7285, 12.847, 8.28⟩ + ((12.847 : ℚ) : ℝ) * Real.logb 10 5 < 14.21 :=
  ⟨total_new_inbound_five, new_far_value_bounds.1, new_far_value_bounds.2⟩

/-- Claim C8: invoked with exactly three positional arguments (argv of
length four), the program interprets them as distance (parsed as a real
number), arc and group in that order, and every magnitude printed by
`main()` is the model evaluated on that scalar distance, arc and group. -/
theorem C8_cli_mode (prog dstr a g : String) (q : ℚ) (hq : pyFloat dstr = some q) :
    mainOutputs [prog, dstr, a, g] =
      [evaluate_checked (NumOrSeq.scalar (q : ℝ)) a g,
       evaluate_checked (NumOrSeq.scalar (q : ℝ)) a g,
       evaluate_checked (NumOrSeq.scalar (q : ℝ)) a g] := by
  simp only [mainOutputs, total_mag_cli prog dstr a g q hq]

/-- Witness for C8 with the command line `prog 5.0 inbound new`. -/
theorem C8_cli_mode_witness :
    mainOutputs ["prog", "5.0", "inbound", "new"] =
      [evaluate_checked (NumOrSeq.scalar ((5 : ℚ) : ℝ)) "inbound" "new",
       evaluate_checked (NumOrSeq.scalar ((5 : ℚ) : ℝ)) "inbound" "new",
       evaluate_checked (NumOrSeq.scalar ((5 : ℚ) : ℝ)) "inbound" "new"] :=
  C8_cli_mode "prog" "5.0" "inbound" "new" 5 pyFloat_five

/-- Claim C9 counterexample: in the full-range grid `r = np.linspace(1, 10,
100)` the first three samples have equal consecutive differences but unequal
consecutive ratios, so the grid is not log-uniform (evenly log-spaced). -/
theorem C9_counterexample :
    (r.get ⟨1, by simp [r, linspace_length]⟩ - r.get ⟨0, by simp [r, linspace_length]⟩
      = r.get ⟨2, by simp [r, linspace_length]⟩ - r.get ⟨1, by simp [r, linspace_length]⟩)
    ∧ r.get ⟨1, by simp [r, linspace_length]⟩ / r.get ⟨0, by simp [r, linspace_length]⟩
      ≠ r.get ⟨2, by simp [r, linspace_length]⟩ / r.get ⟨1, by simp [r, linspace_length]⟩ := by
  constructor <;> · simp only [r, linspace_get]; norm_num

/-- Claim C9 amended: the three grids have 100 samples each, run from 1 to
10, from 3.16 to 1 and from 10 to 3.16 respectively, and are linearly spaced:
consecutive samples differ by the constant steps 9/99, -2.16/99 and -6.84/99
au (constant difference, not constant ratio). -/
theorem C9_amended :
    (r.length = 100 ∧ r_near.length = 100 ∧ r_far.length = 100) ∧
    (r.get ⟨0, by simp [r, linspace_length]⟩ = 1 ∧
      r.get ⟨99, by simp [r, linspace_length]⟩ = 10) ∧
    (r_near.get ⟨0, by simp [r_near, linspace_length]⟩ = 3.16 ∧
      r_near.get ⟨99, by simp [r_near, linspace_length]⟩ = 1) ∧
    (r_far.get ⟨0, by simp [r_far, linspace_length]⟩ = 10 ∧
      r_far.get ⟨99, by simp [r_far, linspace_length]⟩ = 3.16) ∧
    (∀ i j : Fin r.length, (j : ℕ) = (i : ℕ) + 1 →
      r.get j - r.get i = (10 - 1) / 99) ∧
    (∀ i j : Fin r_near.length, (j : ℕ) = (i : ℕ) + 1 →
      r_near.get j - r_near.get i = (1 - 3.16) / 99) ∧
    (∀ i j : Fin r_far.length, (j : ℕ) = (i : ℕ) + 1 →
      r_far.get j - r_far.get i = (3.16 - 10) / 99) := by
  refine ⟨⟨by simp [r, linspace_length], by simp [r_near, linspace_length],
      by simp [r_far, linspace_length]⟩,
    ⟨?_, ?_⟩, ⟨?_, ?_⟩, ⟨?_, ?_⟩, ?_, ?_, ?_⟩
  · simp only [r, linspace_get]; norm_num
  · simp only [r, linspace_get]; norm_num
  · simp only [r_near, linspace_get]; norm_num
  · simp only [r_near, linspace_get]; norm_num
  · simp only [r_far, linspace_get]; norm_num
  · simp only [r_far, linspace_get]; norm_num
  all_goals
  · intro i j hij
    simp only [r, r_near, r_far, linspace_get]
    rw [hij]
    push_cast
    ring

/-- Witness for the amended C9: the first step of the full-range grid. -/
theorem C9_amended_witness :
    r.get ⟨1, by simp [r, linspace_length]⟩ - r.get ⟨0, by simp [r, linspace_length]⟩
      = (10 - 1) / 99 :=
  C9_amended.2.2.2.2.1 ⟨0, by simp [r, linspace_length]⟩
    ⟨1, by simp [r, linspace_length]⟩ rfl

/-- Claim C10: every slope constant in the parameter table is strictly
positive, and consequently for both arcs the magnitude is strictly
increasing in distance over positive distances. -/
theorem C10_strictly_increasing (g : String) (p : ArcPars)
    (hg : BRIGHTENING_PARS g = some p) :
    (0 < p.inbound.k_near ∧ 0 < p.inbound.k_far ∧ 0 < p.outbound.k1) ∧
    (∀ a : String, a = "inbound" ∨ a = "outbound" →
      ∀ d1 d2 : ℝ, 0 < d1 → d1 < d2 →
        ∃ y1 y2 : ℝ,
          total_heliocentric_mag [] (NumOrSeq.scalar d1) a g =
            Except.ok (NumOrSeq.scalar y1) ∧
          total_heliocentric_mag [] (NumOrSeq.scalar d2) a g =
            Except.ok (NumOrSeq.scalar y2) ∧
          y1 < y2) := by
  have hpos : 0 < p.inbound.k_near ∧ 0 < p.inbound.k_far ∧ 0 < p.outbound.k1 := by
    rcases group_of_pars g p hg with h | h | h <;> subst h <;>
      rw [← Option.some.inj hg] <;> exact ⟨by norm_num, by norm_num, by norm_num⟩
  refine ⟨hpos, fun a ha d1 d2 hd1 hd12 => ?_⟩
  have hl : Real.logb 10 d1 < Real.logb 10 d2 :=
    Real.logb_lt_logb (by norm_num) hd1 hd12
  rcases ha with h | h <;> subst h
  · exact ⟨inbound_mag p.inbound (Real.logb 10 d1), inbound_mag p.inbound (Real.logb 10 d2),
      by rw [total_mag_no_cli, evaluate_checked_inbound g p hg]; rfl,
      by rw [total_mag_no_cli, evaluate_checked_inbound g p hg]; rfl,
      inbound_mag_lt p.inbound hpos.1 hpos.2.1 _ _ hl⟩
  · exact ⟨outbound_mag p.outbound (Real.logb 10 d1), outbound_mag p.outbound (Real.logb 10 d2),
      by rw [total_mag_no_cli, evaluate_checked_outbound g p hg]; rfl,
      by rw [total_mag_no_cli, evaluate_checked_outbound g p hg]; rfl,
      outbound_mag_lt p.outbound hpos.2.2 _ _ hl⟩

/-- Witness for C10: inbound "new" magnitudes increase from 1 au to 2 au. -/
theorem C10_strictly_increasing_witness :
    ∃ y1 y2 : ℝ,
      total_heliocentric_mag [] (NumOrSeq.scalar 1) "inbound" "new" =
        Except.ok (NumOrSeq.scalar y1) ∧
      total_heliocentric_mag [] (NumOrSeq.scalar 2) "inbound" "new" =
        Except.ok (NumOrSeq.scalar y2) ∧
      y1 < y2 :=
  (C10_strictly_increasing "new" _ rfl).2 "inbound" (Or.inl rfl) 1 2 one_pos one_lt_two
